import Mathlib

/-! Weather_App: the two-stage lookup workflow of `src/App.jsx`.

A shallow embedding of the attempt tracker (`createApiTracker`), of the two
asynchronous actions of the `App` component (`onSearch`, `onPickLocation`) and
of the event handlers that start them, followed by the properties of the
specification that concern them.

Conventions of the embedding.

* React state is the record `ViewState`; a state setter overwrites its field.
  Every setter call, every outbound service call and every focus request is
  also appended to an event log, so that what an action did, and what the
  state was at the moment of a service call, can be stated.
* An `async` function is a computation `Act` that may end normally or with a
  thrown value; `await` of a rejected promise throws.
* The two network functions of `./api/openMeteo` and the wall clock are not
  part of the embedded code: the promise a service call returns and the text
  `new Date().toLocaleTimeString()` yields are inputs of the actions.
* JavaScript numbers that the actions only store and forward (coordinates,
  measurements) are carried as decimal literals. The attempt counter is the one
  number the code computes with; its increment follows IEEE-754 doubles.
-/

namespace WeatherApp

/-! ## JavaScript strings -/

/-- ECMAScript `WhiteSpace` and `LineTerminator` code points: the characters
`String.prototype.trim` strips. -/
def isJsWhiteSpace (c : Char) : Bool :=
  let n := c.toNat
  n == 0x09 || n == 0x0A || n == 0x0B || n == 0x0C || n == 0x0D || n == 0x20 ||
  n == 0xA0 || n == 0x1680 || (0x2000 ≤ n && n ≤ 0x200A) || n == 0x2028 ||
  n == 0x2029 || n == 0x202F || n == 0x205F || n == 0x3000 || n == 0xFEFF

/-- The method `String.prototype.trim`: white space removed at both ends. -/
def jsTrim (s : String) : String :=
  ⟨((s.data.dropWhile isJsWhiteSpace).reverse.dropWhile isJsWhiteSpace).reverse⟩

/-- The property `.length` of a string: its number of UTF-16 code units. -/
def jsLength (s : String) : Nat :=
  (s.data.map fun c => if c.toNat < 0x10000 then 1 else 2).sum

/-- Truthiness of a string: only the empty string is falsy. -/
def jsTruthy (s : String) : Bool :=
  !s.data.isEmpty

/-! ## Data model -/

/-- A finite JavaScript number that is only stored and forwarded, written as
the decimal literal `mantissa * 10 ^ exponent`. -/
structure JsNumber where
  mantissa : Int
  exponent : Int
  deriving DecidableEq, Repr

/-- One geocoding result, as rendered by the location list of `App`. -/
structure Location where
  id : Nat
  name : String
  admin1 : Option String
  country : String
  latitude : JsNumber
  longitude : JsNumber
  deriving DecidableEq, Repr

/-- The `current` record of a weather payload, as read by `WeatherCard`. -/
structure CurrentWeather where
  temperature_2m : JsNumber
  apparent_temperature : JsNumber
  relative_humidity_2m : JsNumber
  wind_speed_10m : JsNumber
  weather_code : Int
  is_day : Nat
  deriving DecidableEq, Repr

/-- The payload of `getCurrentWeather`. -/
structure WeatherSnapshot where
  timezone : String
  current : CurrentWeather
  deriving DecidableEq, Repr

/-- The `useState` cells of `App` (lines 29-38), `locations` being the
candidate list. -/
structure ViewState where
  query : String
  status : String
  error : String
  locations : List Location
  selected : Option Location
  weather : Option WeatherSnapshot
  loading : Bool
  deriving DecidableEq, Repr

/-! ## The attempt tracker (`createApiTracker`, lines 10-24) -/

/-- The two variables captured by the closure. -/
structure Tracker where
  attempts : Nat
  lastTime : Option String
  deriving DecidableEq, Repr

/-- The object literal both tracker methods return. -/
structure AttemptRecord where
  attempts : Nat
  lastTime : Option String
  deriving DecidableEq, Repr

/-- The largest value the counter reaches: `2 ^ 53`. -/
def maxAttempts : Nat := 9007199254740992

/-- The statement `attempts++` on a counter that starts at `0`. A JavaScript
number is an IEEE-754 double: every integer up to `2 ^ 53` is exact and
`n + 1` is exact below `2 ^ 53`, while `2 ^ 53 + 1` is not representable and
rounds (ties to even) back to `2 ^ 53`. -/
def jsIncrement (n : Nat) : Nat :=
  if n < maxAttempts then n + 1 else n

/-- A freshly created tracker: `attempts = 0`, `lastTime = null`. -/
def createApiTracker : Tracker :=
  { attempts := 0, lastTime := none }

/-- The method `nextAttempt()`; `now` is the text the clock yields. -/
def Tracker.nextAttempt (now : String) (t : Tracker) : AttemptRecord × Tracker :=
  let attempts := jsIncrement t.attempts
  let lastTime := some now
  ({ attempts := attempts, lastTime := lastTime },
   { attempts := attempts, lastTime := lastTime })

/-- The method `get()`. -/
def Tracker.get (t : Tracker) : AttemptRecord × Tracker :=
  ({ attempts := t.attempts, lastTime := t.lastTime }, t)

/-- The tracker after the first `n` calls of `nextAttempt()`, the `k`-th call
reading the time `clock k`. -/
def trackerAfter (clock : Nat → String) : Nat → Tracker
  | 0 => createApiTracker
  | n + 1 => (Tracker.nextAttempt (clock (n + 1)) (trackerAfter clock n)).2

/-- What the `n`-th call of `nextAttempt()` on a fresh tracker returns
(`n ≥ 1`), and the tracker it leaves. -/
def nthAttempt (clock : Nat → String) (n : Nat) : AttemptRecord × Tracker :=
  Tracker.nextAttempt (clock n) (trackerAfter clock (n - 1))

/-! ## Effects of an action -/

/-- A settled promise. -/
inductive Outcome (α : Type) where
  | resolved (value : α)
  | rejected
  deriving DecidableEq, Repr

/-- An outbound call to one of the two services of `./api/openMeteo`. -/
inductive ServiceCall where
  | searchLocations (q : String)
  | getCurrentWeather (latitude longitude : JsNumber)
  deriving DecidableEq, Repr

/-- What an action does, in order. A `request` records the view state held at
the moment of the call, before the call settles. -/
inductive Event where
  | setError (s : String)
  | setStatus (s : String)
  | setWeather (w : Option WeatherSnapshot)
  | setSelected (l : Option Location)
  | setLocations (ls : List Location)
  | setLoading (b : Bool)
  | request (call : ServiceCall) (view : ViewState)
  | focusInput
  deriving DecidableEq, Repr

/-- Everything the actions read and write: the React state, the module-level
`apiTracker`, and the log of effects. -/
structure World where
  view : ViewState
  tracker : Tracker
  log : List Event
  deriving DecidableEq, Repr

/-- A value thrown inside an action. -/
inductive Thrown where
  | rejection
  deriving DecidableEq, Repr

/-- A computation over the world that ends normally or by throwing. -/
def Act (α : Type) : Type :=
  World → Except Thrown α × World

/-- Normal completion. -/
def Act.pure {α : Type} (a : α) : Act α :=
  fun w => (Except.ok a, w)

/-- Sequencing: a throw skips the rest. -/
def Act.bind {α β : Type} (x : Act α) (f : α → Act β) : Act β :=
  fun w =>
    match x w with
    | (Except.ok a, w1) => f a w1
    | (Except.error e, w1) => (Except.error e, w1)

instance Act.instMonad : Monad Act where
  pure := Act.pure
  bind := Act.bind

/-- The statement `try body catch handler finally finalizer`: the handler runs
when the body throws, the finalizer runs on every path, and the writes made
before a throw stay. -/
def tryCatchFinally (body handler finalizer : Act Unit) : Act Unit :=
  fun w =>
    match body w with
    | (Except.ok _, w1) => finalizer w1
    | (Except.error _, w1) =>
      match handler w1 with
      | (Except.ok _, w2) => finalizer w2
      | (Except.error e, w2) =>
        match finalizer w2 with
        | (Except.ok _, w3) => (Except.error e, w3)
        | (Except.error e3, w3) => (Except.error e3, w3)

/-- The expression `await p` for an already settled promise. -/
def await {α : Type} : Outcome α → Act α
  | Outcome.resolved a => Act.pure a
  | Outcome.rejected => fun w => (Except.error Thrown.rejection, w)

/-- A state setter: overwrite and log. -/
def setter (e : Event) (f : ViewState → ViewState) : Act Unit :=
  fun w => (Except.ok (), { w with view := f w.view, log := w.log ++ [e] })

def setError (s : String) : Act Unit :=
  setter (Event.setError s) fun v => { v with error := s }

def setStatus (s : String) : Act Unit :=
  setter (Event.setStatus s) fun v => { v with status := s }

def setWeather (x : Option WeatherSnapshot) : Act Unit :=
  setter (Event.setWeather x) fun v => { v with weather := x }

def setSelected (l : Option Location) : Act Unit :=
  setter (Event.setSelected l) fun v => { v with selected := l }

def setLocations (ls : List Location) : Act Unit :=
  setter (Event.setLocations ls) fun v => { v with locations := ls }

def setLoading (b : Bool) : Act Unit :=
  setter (Event.setLoading b) fun v => { v with loading := b }

/-- The call `apiTracker.nextAttempt()` on the module-level tracker. -/
def apiTrackerNextAttempt (now : String) : Act AttemptRecord :=
  fun w =>
    let r := Tracker.nextAttempt now w.tracker
    (Except.ok r.1, { w with tracker := r.2 })

/-- An outbound call: logged with the view state of that moment; the promise
it returns is `promise`. -/
def invoke {α : Type} (call : ServiceCall) (promise : Outcome α) : Act (Outcome α) :=
  fun w => (Except.ok promise, { w with log := w.log ++ [Event.request call w.view] })

/-- The call `inputRef.current?.focus()`. -/
def focusInput : Act Unit :=
  fun w => (Except.ok (), { w with log := w.log ++ [Event.focusInput] })

/-! ## The two actions of `App` -/

/-- The argument of `onSearch`: a string (`"auto"` from the start-up effect,
the default `"manual"` from the key handler) or the click event the button
passes. -/
inductive Mode where
  | text (s : String)
  | clickEvent
  deriving DecidableEq, Repr

/-- The test `mode === "manual"`. -/
def Mode.isManual : Mode → Bool
  | Mode.text s => s == "manual"
  | Mode.clickEvent => false

/-- The text `(Attempt N • T)` spliced into both progress messages; the time
is left out when it is falsy. -/
def attemptLabel (t : AttemptRecord) : String :=
  "(Attempt " ++ toString t.attempts ++
    (match t.lastTime with
     | some s => if jsTruthy s then " • " ++ s else ""
     | none => "") ++ ")"

/-- The state variable `query` as the action sees it. -/
def readQuery : Act String :=
  fun w => (Except.ok w.view.query, w)

/-- The function `onSearch(mode)` (lines 56-95). `searchLocations` gives the
promise the search service returns for a query, `now` the clock reading. -/
def onSearch (searchLocations : String → Outcome (List Location)) (now : String)
    (mode : Mode) : Act Unit := do
  setError ""
  setStatus ""
  setWeather none
  setSelected none
  let query ← readQuery
  let q := jsTrim query
  if !jsTruthy q then
    setError "Please enter a city name."
  else
    tryCatchFinally
      (do
        setLoading true
        let t ← apiTrackerNextAttempt now
        setStatus ("Searching locations... " ++ attemptLabel t)
        let results ← await (← invoke (ServiceCall.searchLocations q) (searchLocations q))
        setLocations results
        if results.length == 0 then
          setStatus ""
          setError "No matching locations found."
        else
          setStatus "Select a location below."
        if mode.isManual then focusInput)
      (setError "Failed to search locations. Check internet and try again.")
      (setLoading false)

/-- The function `onPickLocation(loc)` (lines 97-123). `getCurrentWeather`
gives the promise the weather service returns for a pair of coordinates. -/
def onPickLocation (getCurrentWeather : JsNumber → JsNumber → Outcome WeatherSnapshot)
    (now : String) (loc : Location) : Act Unit := do
  setError ""
  setStatus ""
  setSelected (some loc)
  setWeather none
  tryCatchFinally
    (do
      setLoading true
      let t ← apiTrackerNextAttempt now
      setStatus ("Fetching current weather... " ++ attemptLabel t)
      setLocations []
      let data ← await (← invoke (ServiceCall.getCurrentWeather loc.latitude loc.longitude)
        (getCurrentWeather loc.latitude loc.longitude))
      setWeather (some data)
      setStatus "Done ✅")
    (setError "Failed to fetch weather for this location.")
    (setLoading false)

/-! ## The handlers that start the actions -/

/-- The derived value `canSearch` (line 44), which enables the search button. -/
def canSearch (v : ViewState) : Bool :=
  decide (jsLength (jsTrim v.query) ≥ 2) && !v.loading

/-- The handler `onChange` of the input: `setQuery(e.target.value)`. -/
def onChange (value : String) : Act Unit :=
  fun w => (Except.ok (), { w with view := { w.view with query := value } })

/-- The handler `onKeyDown` of the input (line 160):
`e.key === "Enter" && onSearch()`. -/
def onKeyDown (searchLocations : String → Outcome (List Location)) (now : String)
    (key : String) : Act Unit :=
  if key == "Enter" then onSearch searchLocations now (Mode.text "manual")
  else Act.pure ()

/-- A click on the search button (lines 163-169): `onSearch` receives the
click event, and a disabled button (`!canSearch`) does nothing. -/
def onClickSearch (searchLocations : String → Outcome (List Location)) (now : String) :
    Act Unit :=
  fun w =>
    if canSearch w.view then onSearch searchLocations now Mode.clickEvent w
    else (Except.ok (), w)

/-- The start-up effect (lines 51-54): `onSearch("auto")`, once on load. -/
def onMount (searchLocations : String → Outcome (List Location)) (now : String) : Act Unit :=
  onSearch searchLocations now (Mode.text "auto")

/-- The state `App` starts in (lines 29-38), with the fresh module-level
tracker. -/
def initialWorld : World :=
  { view := { query := "Chennai", status := "", error := "", locations := [],
              selected := none, weather := none, loading := false },
    tracker := createApiTracker,
    log := [] }

/-! ## Sessions: completed actions, one after the other -/

/-- One completed user-level step, with what the environment answered. -/
inductive Step where
  | typeQuery (value : String)
  | search (searchLocations : String → Outcome (List Location)) (now : String) (mode : Mode)
  | pick (getCurrentWeather : JsNumber → JsNumber → Outcome WeatherSnapshot) (now : String)
      (loc : Location)

/-- The computation a step runs. -/
def Step.act : Step → Act Unit
  | Step.typeQuery value => onChange value
  | Step.search searchLocations now mode => onSearch searchLocations now mode
  | Step.pick getCurrentWeather now loc => onPickLocation getCurrentWeather now loc

/-- The world after a sequence of steps, each run to completion before the
next one starts. -/
def runSession : List Step → World → World
  | [], w => w
  | s :: rest, w => runSession rest (s.act w).2

/-! ## Predicates of the specification -/

/-- The check a query must pass for `onSearch` to go on to the service:
its trimmed text is not empty. -/
def passesValidation (query : String) : Prop :=
  jsTruthy (jsTrim query) = true

instance (query : String) : Decidable (passesValidation query) := by
  unfold passesValidation; infer_instance

/-- The service calls of a log, each with the view state held at the call. -/
def requests : List Event → List (ServiceCall × ViewState)
  | [] => []
  | Event.request c v :: rest => (c, v) :: requests rest
  | _ :: rest => requests rest

/-- The three visible sections of the page. -/
def sectionCount (v : ViewState) : Nat :=
  (if v.locations.length > 0 then 1 else 0) +
  (if v.weather.isSome then 1 else 0) +
  (if jsTruthy v.error then 1 else 0)

/-- The invariant of completed steps: a weather snapshot excludes both a
candidate list and an error. -/
def weatherAlone (v : ViewState) : Prop :=
  v.weather = none ∨ (v.locations = [] ∧ v.error = "")

/-! ## Sample data -/

/-- A candidate as the geocoding service returns it. -/
def chennai : Location :=
  { id := 1264527, name := "Chennai", admin1 := some "Tamil Nadu", country := "India",
    latitude := ⟨130878, -4⟩, longitude := ⟨802785, -4⟩ }

/-- A second candidate, without a region. -/
def paris : Location :=
  { id := 2988507, name := "Paris", admin1 := none, country := "France",
    latitude := ⟨4885341, -5⟩, longitude := ⟨23488, -4⟩ }

/-- A weather payload with `temperature_2m = 31.4`. -/
def sampleSnapshot : WeatherSnapshot :=
  { timezone := "Asia/Kolkata",
    current := { temperature_2m := ⟨314, -1⟩, apparent_temperature := ⟨362, -1⟩,
                 relative_humidity_2m := ⟨70, 0⟩, wind_speed_10m := ⟨125, -1⟩,
                 weather_code := 2, is_day := 1 } }

/-- A search service that always rejects. -/
def failingSearch : String → Outcome (List Location) :=
  fun _ => Outcome.rejected

/-- A search service that resolves with two candidates. -/
def twoCandidates : String → Outcome (List Location) :=
  fun _ => Outcome.resolved [chennai, paris]

/-- A search service that finds nothing. -/
def noCandidates : String → Outcome (List Location) :=
  fun _ => Outcome.resolved []

/-- A weather service that always rejects. -/
def failingWeather : JsNumber → JsNumber → Outcome WeatherSnapshot :=
  fun _ _ => Outcome.rejected

/-- A weather service that resolves with `sampleSnapshot`. -/
def sunnyWeather : JsNumber → JsNumber → Outcome WeatherSnapshot :=
  fun _ _ => Outcome.resolved sampleSnapshot

/-- The world after the user replaced the default query by the single
letter `a`. -/
def singleLetterWorld : World :=
  runSession [Step.typeQuery "a"] initialWorld

/-- A constant clock. -/
def noon : Nat → String :=
  fun _ => "12:00:00"

/-- A successful search, then a search that the service rejects. -/
def staleListSession : List Step :=
  [Step.search twoCandidates "10:00:00" (Mode.text "auto"),
   Step.typeQuery "Paris",
   Step.search failingSearch "10:00:05" (Mode.text "manual")]

/-- The end-to-end scenario of the specification: the start-up search returns
two candidates, the user picks the second, the weather arrives. -/
def endToEndSession : List Step :=
  [Step.search twoCandidates "10:00:00" (Mode.text "auto"),
   Step.pick sunnyWeather "10:00:07" paris]

/-- The world after the start-up search found two candidates and the user
typed `  Paris ` into the input: the list is on display. -/
def listingWorld : World :=
  runSession [Step.search twoCandidates "10:00:00" (Mode.text "auto"),
              Step.typeQuery "  Paris "] initialWorld

/-- The world at the end of the end-to-end scenario: a weather snapshot is on
display. -/
def readyWorld : World :=
  runSession endToEndSession initialWorld

/-! ## Auxiliary lemmas -/

theorem requests_append (xs ys : List Event) :
    requests (xs ++ ys) = requests xs ++ requests ys := by
  induction xs with
  | nil => rfl
  | cons e rest ih => cases e <;> simp [requests, ih]

/-- A query the specification accepts (trimmed length at least 2) passes the
check of `onSearch`. -/
theorem passesValidation_of_two_le_length (query : String)
    (h : 2 ≤ jsLength (jsTrim query)) : passesValidation query := by
  unfold passesValidation jsTruthy
  unfold jsLength at h
  cases hd : (jsTrim query).data with
  | nil => rw [hd] at h; simp at h
  | cons c cs => rfl

/-- On a query whose trimmed text is empty `onSearch` stops at its guard: no
service call, `loading` never written, the city-name message shown. -/
theorem onSearch_empty_query (searchLocations : String → Outcome (List Location))
    (now : String) (mode : Mode) (w : World) (hq : ¬ passesValidation w.view.query) :
    (onSearch searchLocations now mode w).1 = Except.ok () ∧
    requests (onSearch searchLocations now mode w).2.log = requests w.log ∧
    (onSearch searchLocations now mode w).2.view.error = "Please enter a city name." ∧
    (onSearch searchLocations now mode w).2.view.loading = w.view.loading ∧
    (∀ b, Event.setLoading b ∈ (onSearch searchLocations now mode w).2.log →
      Event.setLoading b ∈ w.log) := by
  unfold passesValidation at hq
  simp only [Bool.not_eq_true] at hq
  simp [onSearch, bind, Act.bind, readQuery, setError, setStatus, setWeather, setSelected,
    setter, hq, requests_append, requests]

theorem trackerAfter_attempts (clock : Nat → String) (n : Nat) :
    (trackerAfter clock n).attempts = min n maxAttempts := by
  induction n with
  | zero => simp [trackerAfter, createApiTracker]
  | succ k ih =>
    simp only [trackerAfter, Tracker.nextAttempt, ih, jsIncrement]
    split <;> omega

theorem nthAttempt_attempts (clock : Nat → String) (n : Nat) (h : 1 ≤ n) :
    (nthAttempt clock n).1.attempts = min n maxAttempts := by
  simp only [nthAttempt, Tracker.nextAttempt, trackerAfter_attempts, jsIncrement]
  split <;> omega

/-- Whatever happens, `onSearch` ends with no weather snapshot. -/
theorem onSearch_weather_none (searchLocations : String → Outcome (List Location))
    (now : String) (mode : Mode) (w : World) :
    (onSearch searchLocations now mode w).2.view.weather = none := by
  cases hq : jsTruthy (jsTrim w.view.query) <;>
  cases hs : searchLocations (jsTrim w.view.query) with
  | rejected =>
    simp [onSearch, bind, Act.bind, readQuery, setError, setStatus, setWeather, setSelected,
      setLoading, setLocations, setter, tryCatchFinally, apiTrackerNextAttempt, invoke, await,
      hq, hs]
  | resolved results =>
    cases results <;> cases hm : mode.isManual <;>
    simp [onSearch, bind, Act.bind, Act.pure, pure, readQuery, setError, setStatus, setWeather,
      setSelected, setLoading, setLocations, setter, tryCatchFinally, apiTrackerNextAttempt,
      invoke, await, focusInput, hq, hs, hm]

/-- After `onPickLocation` a weather snapshot is on display only next to an
empty candidate list and an empty error. -/
theorem onPickLocation_weather_alone
    (getCurrentWeather : JsNumber → JsNumber → Outcome WeatherSnapshot) (now : String)
    (loc : Location) (w : World) :
    (onPickLocation getCurrentWeather now loc w).2.view.weather = none ∨
    ((onPickLocation getCurrentWeather now loc w).2.view.locations = [] ∧
     (onPickLocation getCurrentWeather now loc w).2.view.error = "") := by
  cases hs : getCurrentWeather loc.latitude loc.longitude <;>
  simp [onPickLocation, bind, Act.bind, Act.pure, setError, setStatus, setWeather,
    setSelected, setLoading, setLocations, setter, tryCatchFinally, apiTrackerNextAttempt,
    invoke, await, hs]

theorem step_preserves_weatherAlone (s : Step) (w : World) (h : weatherAlone w.view) :
    weatherAlone (s.act w).2.view := by
  cases s with
  | typeQuery value =>
    simpa [Step.act, onChange, weatherAlone] using h
  | search searchLocations now mode =>
    exact Or.inl (onSearch_weather_none searchLocations now mode w)
  | pick getCurrentWeather now loc =>
    exact onPickLocation_weather_alone getCurrentWeather now loc w

theorem runSession_preserves_weatherAlone (steps : List Step) (w : World)
    (h : weatherAlone w.view) : weatherAlone (runSession steps w).view := by
  induction steps generalizing w with
  | nil => exact h
  | cons s rest ih => exact ih _ (step_preserves_weatherAlone s w h)

/-! ## The claims -/

/-- C1 (the code departs from it): a query of trimmed length 1 must never reach
the location search service. With the query `a`, whose trimmed length is 1 and
for which `canSearch` disables the button, the Enter key still runs `onSearch`
through to the service: one call `searchLocations("a")` is made with
`loading` already true, `setLoading(true)` is in the log, and the action ends
without the validation message. -/
theorem onKeyDown_single_letter_reaches_service :
    jsLength (jsTrim singleLetterWorld.view.query) = 1 ∧
    canSearch singleLetterWorld.view = false ∧
    (onClickSearch twoCandidates "10:00:00" singleLetterWorld).2 = singleLetterWorld ∧
    (requests (onKeyDown twoCandidates "10:00:00" "Enter" singleLetterWorld).2.log).map
      (fun r => (r.1, r.2.loading)) = [(ServiceCall.searchLocations "a", true)] ∧
    Event.setLoading true ∈ (onKeyDown twoCandidates "10:00:00" "Enter" singleLetterWorld).2.log ∧
    (onKeyDown twoCandidates "10:00:00" "Enter" singleLetterWorld).2.view.error = "" ∧
    (onKeyDown twoCandidates "10:00:00" "Enter" singleLetterWorld).2.view.locations =
      [chennai, paris] := by
  decide

/-- C2 (as stated, refuted): with two candidates on display and the query
`  Paris ` (trimmed length 5), the view state at the moment `onSearch` calls
the search service still holds both candidates (the log shows the start-up
call for `Chennai` first, then this one). -/
theorem onSearch_request_sees_old_candidates :
    passesValidation listingWorld.view.query ∧
    jsLength (jsTrim listingWorld.view.query) = 5 ∧
    listingWorld.view.locations = [chennai, paris] ∧
    (requests (onSearch twoCandidates "10:16:00" (Mode.text "manual") listingWorld).2.log).map
      (fun r => (r.1, r.2.locations)) =
      [(ServiceCall.searchLocations "Chennai", []),
       (ServiceCall.searchLocations "Paris", [chennai, paris])] ∧
    ¬ (∀ r ∈ requests (onSearch twoCandidates "10:16:00" (Mode.text "manual") listingWorld).2.log,
        r.2.locations = []) := by
  decide

/-- C2 (amended): for every view state and every query that passes the check of
`onSearch`, the candidate list is not cleared when the new search begins: the
action makes exactly one call of the search service, with the trimmed query,
and at the moment of that call (before it settles) `candidates` is still the
list held before the action began. -/
theorem onSearch_request_keeps_candidates
    (searchLocations : String → Outcome (List Location)) (now : String) (mode : Mode)
    (w : World) (hq : passesValidation w.view.query) :
    ∃ v : ViewState,
      requests (onSearch searchLocations now mode w).2.log =
        requests w.log ++ [(ServiceCall.searchLocations (jsTrim w.view.query), v)] ∧
      v.locations = w.view.locations := by
  unfold passesValidation at hq
  cases hs : searchLocations (jsTrim w.view.query) with
  | rejected =>
    simp [onSearch, bind, Act.bind, readQuery, setError, setStatus, setWeather, setSelected,
      setLoading, setLocations, setter, tryCatchFinally, apiTrackerNextAttempt, invoke, await,
      requests_append, requests, hq, hs]
  | resolved results =>
    cases results <;> cases hm : mode.isManual <;>
    simp [onSearch, bind, Act.bind, Act.pure, pure, readQuery, setError, setStatus, setWeather,
      setSelected, setLoading, setLocations, setter, tryCatchFinally, apiTrackerNextAttempt,
      invoke, await, focusInput, requests_append, requests, hq, hs, hm]

/-- Instance of the amended C2 at `listingWorld`, whose query `  Paris ` passes the check. -/
theorem onSearch_request_keeps_candidates_witness :
    passesValidation listingWorld.view.query ∧
    ∃ v : ViewState,
      requests (onSearch twoCandidates "10:16:00" (Mode.text "manual") listingWorld).2.log =
        requests listingWorld.log ++
          [(ServiceCall.searchLocations (jsTrim listingWorld.view.query), v)] ∧
      v.locations = listingWorld.view.locations :=
  ⟨by decide,
   onSearch_request_keeps_candidates twoCandidates "10:16:00" (Mode.text "manual") listingWorld
     (by decide)⟩

/-- C3: for every view state and every query that passes the check of
`onSearch`, when the search service rejects, the action ends normally (nothing
is thrown out of it) with `error` equal to the search-failed message,
`loading` false and the candidate list that was held before the call. -/
theorem onSearch_service_failure
    (searchLocations : String → Outcome (List Location)) (now : String) (mode : Mode)
    (w : World) (hq : passesValidation w.view.query)
    (hfail : searchLocations (jsTrim w.view.query) = Outcome.rejected) :
    (onSearch searchLocations now mode w).1 = Except.ok () ∧
    (onSearch searchLocations now mode w).2.view.error =
      "Failed to search locations. Check internet and try again." ∧
    (onSearch searchLocations now mode w).2.view.loading = false ∧
    (onSearch searchLocations now mode w).2.view.locations = w.view.locations := by
  unfold passesValidation at hq
  simp [onSearch, bind, Act.bind, readQuery, setError, setStatus, setWeather, setSelected,
    setLoading, setLocations, setter, tryCatchFinally, apiTrackerNextAttempt, invoke, await,
    hq, hfail]

/-- Instance of C3 at `listingWorld` with a search service that rejects. -/
theorem onSearch_service_failure_witness :
    passesValidation listingWorld.view.query ∧
    failingSearch (jsTrim listingWorld.view.query) = Outcome.rejected ∧
    (onSearch failingSearch "10:16:00" (Mode.text "manual") listingWorld).1 = Except.ok () ∧
    (onSearch failingSearch "10:16:00" (Mode.text "manual") listingWorld).2.view.error =
      "Failed to search locations. Check internet and try again." ∧
    (onSearch failingSearch "10:16:00" (Mode.text "manual") listingWorld).2.view.loading = false ∧
    (onSearch failingSearch "10:16:00" (Mode.text "manual") listingWorld).2.view.locations =
      listingWorld.view.locations :=
  ⟨by decide, rfl,
   onSearch_service_failure failingSearch "10:16:00" (Mode.text "manual") listingWorld
     (by decide) rfl⟩

/-- C4: for every view state, every query that passes the check of `onSearch`
and every non-empty list the search service resolves with, the action ends
normally with `candidates` equal to that list, `status` equal to the
choose-a-location message, `error` empty, `weather` and `selected` none, and
`loading` false. -/
theorem onSearch_found
    (searchLocations : String → Outcome (List Location)) (now : String) (mode : Mode)
    (w : World) (results : List Location) (hq : passesValidation w.view.query)
    (hres : searchLocations (jsTrim w.view.query) = Outcome.resolved results)
    (hne : results ≠ []) :
    (onSearch searchLocations now mode w).1 = Except.ok () ∧
    (onSearch searchLocations now mode w).2.view.locations = results ∧
    (onSearch searchLocations now mode w).2.view.status = "Select a location below." ∧
    (onSearch searchLocations now mode w).2.view.error = "" ∧
    (onSearch searchLocations now mode w).2.view.weather = none ∧
    (onSearch searchLocations now mode w).2.view.selected = none ∧
    (onSearch searchLocations now mode w).2.view.loading = false := by
  unfold passesValidation at hq
  cases results with
  | nil => exact absurd rfl hne
  | cons r rs =>
    cases hm : mode.isManual <;>
    simp [onSearch, bind, Act.bind, Act.pure, pure, readQuery, setError, setStatus, setWeather,
      setSelected, setLoading, setLocations, setter, tryCatchFinally, apiTrackerNextAttempt,
      invoke, await, focusInput, hq, hres, hm]

/-- Instance of C4 at `listingWorld` with a search service that finds two candidates. -/
theorem onSearch_found_witness :
    passesValidation listingWorld.view.query ∧
    twoCandidates (jsTrim listingWorld.view.query) = Outcome.resolved [chennai, paris] ∧
    [chennai, paris] ≠ [] ∧
    (onSearch twoCandidates "10:16:00" Mode.clickEvent listingWorld).1 = Except.ok () ∧
    (onSearch twoCandidates "10:16:00" Mode.clickEvent listingWorld).2.view.locations =
      [chennai, paris] ∧
    (onSearch twoCandidates "10:16:00" Mode.clickEvent listingWorld).2.view.status =
      "Select a location below." ∧
    (onSearch twoCandidates "10:16:00" Mode.clickEvent listingWorld).2.view.error = "" ∧
    (onSearch twoCandidates "10:16:00" Mode.clickEvent listingWorld).2.view.weather = none ∧
    (onSearch twoCandidates "10:16:00" Mode.clickEvent listingWorld).2.view.selected = none ∧
    (onSearch twoCandidates "10:16:00" Mode.clickEvent listingWorld).2.view.loading = false :=
  ⟨by decide, rfl, by decide,
   onSearch_found twoCandidates "10:16:00" Mode.clickEvent listingWorld [chennai, paris]
     (by decide) rfl (by decide)⟩

/-- C5: for every view state and every query that passes the check of
`onSearch`, when the search service resolves with the empty list, the action
ends normally with `candidates` empty, `status` empty, `error` equal to the
no-matching-locations message, and `loading` false. -/
theorem onSearch_nothing_found
    (searchLocations : String → Outcome (List Location)) (now : String) (mode : Mode)
    (w : World) (hq : passesValidation w.view.query)
    (hres : searchLocations (jsTrim w.view.query) = Outcome.resolved []) :
    (onSearch searchLocations now mode w).1 = Except.ok () ∧
    (onSearch searchLocations now mode w).2.view.locations = [] ∧
    (onSearch searchLocations now mode w).2.view.status = "" ∧
    (onSearch searchLocations now mode w).2.view.error = "No matching locations found." ∧
    (onSearch searchLocations now mode w).2.view.loading = false := by
  unfold passesValidation at hq
  cases hm : mode.isManual <;>
  simp [onSearch, bind, Act.bind, Act.pure, pure, readQuery, setError, setStatus, setWeather,
    setSelected, setLoading, setLocations, setter, tryCatchFinally, apiTrackerNextAttempt,
    invoke, await, focusInput, hq, hres, hm]

/-- Instance of C5 at `listingWorld` with a search service that finds nothing. -/
theorem onSearch_nothing_found_witness :
    passesValidation listingWorld.view.query ∧
    noCandidates (jsTrim listingWorld.view.query) = Outcome.resolved [] ∧
    (onSearch noCandidates "10:16:00" (Mode.text "manual") listingWorld).1 = Except.ok () ∧
    (onSearch noCandidates "10:16:00" (Mode.text "manual") listingWorld).2.view.locations = [] ∧
    (onSearch noCandidates "10:16:00" (Mode.text "manual") listingWorld).2.view.status = "" ∧
    (onSearch noCandidates "10:16:00" (Mode.text "manual") listingWorld).2.view.error =
      "No matching locations found." ∧
    (onSearch noCandidates "10:16:00" (Mode.text "manual") listingWorld).2.view.loading = false :=
  ⟨by decide, rfl,
   onSearch_nothing_found noCandidates "10:16:00" (Mode.text "manual") listingWorld
     (by decide) rfl⟩

/-- C6: for every view state, every candidate and every answer of the weather
service, `onPickLocation` makes exactly one weather call, for the latitude and
longitude of the candidate; at the moment of that call (before it settles)
`candidates` is already empty, `selected` is the candidate, `weather` is none
and `error` is empty; and once the call has settled, by success or by failure,
`candidates` is still empty and `selected` is still the candidate. -/
theorem onPickLocation_clears_before_settling
    (getCurrentWeather : JsNumber → JsNumber → Outcome WeatherSnapshot) (now : String)
    (loc : Location) (w : World) :
    ∃ v : ViewState,
      requests (onPickLocation getCurrentWeather now loc w).2.log =
        requests w.log ++
          [(ServiceCall.getCurrentWeather loc.latitude loc.longitude, v)] ∧
      v.locations = [] ∧ v.selected = some loc ∧ v.weather = none ∧ v.error = "" ∧
      (onPickLocation getCurrentWeather now loc w).2.view.locations = [] ∧
      (onPickLocation getCurrentWeather now loc w).2.view.selected = some loc := by
  cases hs : getCurrentWeather loc.latitude loc.longitude <;>
  simp [onPickLocation, bind, Act.bind, Act.pure, setError, setStatus, setWeather,
    setSelected, setLoading, setLocations, setter, tryCatchFinally, apiTrackerNextAttempt,
    invoke, await, requests_append, requests, hs]

/-- C7: for every view state, every candidate and every snapshot the weather
service resolves with for the latitude and longitude of the candidate,
`onPickLocation` ends normally with `weather` equal to that snapshot, `status`
equal to the done message, `error` empty and `loading` false. -/
theorem onPickLocation_success
    (getCurrentWeather : JsNumber → JsNumber → Outcome WeatherSnapshot) (now : String)
    (loc : Location) (w : World) (snapshot : WeatherSnapshot)
    (hres : getCurrentWeather loc.latitude loc.longitude = Outcome.resolved snapshot) :
    (onPickLocation getCurrentWeather now loc w).1 = Except.ok () ∧
    (onPickLocation getCurrentWeather now loc w).2.view.weather = some snapshot ∧
    (onPickLocation getCurrentWeather now loc w).2.view.status = "Done ✅" ∧
    (onPickLocation getCurrentWeather now loc w).2.view.error = "" ∧
    (onPickLocation getCurrentWeather now loc w).2.view.loading = false := by
  simp [onPickLocation, bind, Act.bind, Act.pure, setError, setStatus, setWeather,
    setSelected, setLoading, setLocations, setter, tryCatchFinally, apiTrackerNextAttempt,
    invoke, await, hres]

/-- Instance of C7 at `listingWorld`, picking `paris`, the weather service resolving. -/
theorem onPickLocation_success_witness :
    sunnyWeather paris.latitude paris.longitude = Outcome.resolved sampleSnapshot ∧
    (onPickLocation sunnyWeather "10:17:00" paris listingWorld).1 = Except.ok () ∧
    (onPickLocation sunnyWeather "10:17:00" paris listingWorld).2.view.weather =
      some sampleSnapshot ∧
    (onPickLocation sunnyWeather "10:17:00" paris listingWorld).2.view.status = "Done ✅" ∧
    (onPickLocation sunnyWeather "10:17:00" paris listingWorld).2.view.error = "" ∧
    (onPickLocation sunnyWeather "10:17:00" paris listingWorld).2.view.loading = false :=
  ⟨rfl, onPickLocation_success sunnyWeather "10:17:00" paris listingWorld sampleSnapshot rfl⟩

/-- C8: for every view state, also one that already shows a weather snapshot,
and every candidate, when the weather service rejects, `onPickLocation` ends
normally (nothing is thrown out of it) with `weather` none, `error` equal to
the weather-fetch-failed message and `loading` false. -/
theorem onPickLocation_failure
    (getCurrentWeather : JsNumber → JsNumber → Outcome WeatherSnapshot) (now : String)
    (loc : Location) (w : World)
    (hfail : getCurrentWeather loc.latitude loc.longitude = Outcome.rejected) :
    (onPickLocation getCurrentWeather now loc w).1 = Except.ok () ∧
    (onPickLocation getCurrentWeather now loc w).2.view.weather = none ∧
    (onPickLocation getCurrentWeather now loc w).2.view.error =
      "Failed to fetch weather for this location." ∧
    (onPickLocation getCurrentWeather now loc w).2.view.loading = false := by
  simp [onPickLocation, bind, Act.bind, Act.pure, setError, setStatus, setWeather,
    setSelected, setLoading, setLocations, setter, tryCatchFinally, apiTrackerNextAttempt,
    invoke, await, hfail]

/-- Instance of C8 at `readyWorld`, which already shows a snapshot, the weather
service rejecting. -/
theorem onPickLocation_failure_witness :
    failingWeather paris.latitude paris.longitude = Outcome.rejected ∧
    readyWorld.view.weather = some sampleSnapshot ∧
    (onPickLocation failingWeather "10:17:00" paris readyWorld).1 = Except.ok () ∧
    (onPickLocation failingWeather "10:17:00" paris readyWorld).2.view.weather = none ∧
    (onPickLocation failingWeather "10:17:00" paris readyWorld).2.view.error =
      "Failed to fetch weather for this location." ∧
    (onPickLocation failingWeather "10:17:00" paris readyWorld).2.view.loading = false :=
  ⟨rfl, rfl, onPickLocation_failure failingWeather "10:17:00" paris readyWorld rfl⟩

/-- Why the count carries a bound: the counter is a JavaScript number, so a
call number `2 ^ 53 + 1` on one tracker, more calls than any run of the page
makes, would return `2 ^ 53` again. -/
theorem nextAttempt_count_stalls :
    (nthAttempt noon (maxAttempts + 1)).1.attempts ≠ maxAttempts + 1 ∧
    (nthAttempt noon (maxAttempts + 1)).1.attempts = 9007199254740992 := by
  rw [nthAttempt_attempts noon (maxAttempts + 1) (by omega)]
  simp [maxAttempts]

/-- C9: for every `N ≥ 1`, on a freshly created tracker the `N`-th call of
`nextAttempt()` returns the count `N` and the time read at that call; a
`get()` made right after returns the same count and the same time and leaves
the tracker as it is; and the count returned never decreases from one call to
the next. Side condition: `N ≤ 2 ^ 53`, the range over which a JavaScript
number counts exactly, which covers every number of calls a run can make. -/
theorem nextAttempt_nth_count (clock : Nat → String) (N : Nat)
    (h1 : 1 ≤ N) (hN : N ≤ maxAttempts) :
    (nthAttempt clock N).1.attempts = N ∧
    (nthAttempt clock N).1.lastTime = some (clock N) ∧
    (Tracker.get (nthAttempt clock N).2).1 = (nthAttempt clock N).1 ∧
    (Tracker.get (nthAttempt clock N).2).2 = (nthAttempt clock N).2 ∧
    (∀ M, 1 ≤ M → (nthAttempt clock M).1.attempts ≤ (nthAttempt clock (M + 1)).1.attempts) := by
  refine ⟨?_, rfl, rfl, rfl, ?_⟩
  · rw [nthAttempt_attempts clock N h1]
    omega
  · intro M hM
    rw [nthAttempt_attempts clock M hM, nthAttempt_attempts clock (M + 1) (by omega)]
    omega

/-- Instance of C9 at the third call. -/
theorem nextAttempt_nth_count_witness :
    1 ≤ 3 ∧ 3 ≤ maxAttempts ∧
    (nthAttempt noon 3).1.attempts = 3 ∧
    (nthAttempt noon 3).1.lastTime = some (noon 3) ∧
    (Tracker.get (nthAttempt noon 3).2).1 = (nthAttempt noon 3).1 ∧
    (Tracker.get (nthAttempt noon 3).2).2 = (nthAttempt noon 3).2 ∧
    (∀ M, 1 ≤ M → (nthAttempt noon M).1.attempts ≤ (nthAttempt noon (M + 1)).1.attempts) :=
  ⟨by decide, by decide, nextAttempt_nth_count noon 3 (by decide) (by decide)⟩

/-- C10 (as stated, refuted): after a search that found two candidates and a
second search that the service rejected, both the candidate list and the
error are on display, so two of the three sections hold at once. -/
theorem session_candidates_and_error_together :
    (runSession staleListSession initialWorld).view.locations = [chennai, paris] ∧
    (runSession staleListSession initialWorld).view.error =
      "Failed to search locations. Check internet and try again." ∧
    (runSession staleListSession initialWorld).view.loading = false ∧
    ¬ sectionCount (runSession staleListSession initialWorld).view ≤ 1 := by
  decide

/-- C10 (amended): in every view state reached from the initial state by a
finite sequence of completed steps (typing a query, a search, a selection, with
arbitrary queries, candidates and service answers), a weather snapshot on
display excludes the other two sections: if `weather` is present, then
`candidates` is empty and `error` is empty. -/
theorem session_weather_excludes_others (steps : List Step)
    (hw : (runSession steps initialWorld).view.weather.isSome = true) :
    (runSession steps initialWorld).view.locations = [] ∧
    (runSession steps initialWorld).view.error = "" ∧
    sectionCount (runSession steps initialWorld).view = 1 := by
  have hinv := runSession_preserves_weatherAlone steps initialWorld (Or.inl rfl)
  rcases hinv with hnone | ⟨hl, he⟩
  · rw [hnone] at hw
    exact absurd hw (by simp)
  · refine ⟨hl, he, ?_⟩
    simp [sectionCount, hl, he, hw, jsTruthy]

/-- Instance of the amended C10 at the end-to-end scenario, which ends with a
weather snapshot on display. -/
theorem session_weather_excludes_others_witness :
    (runSession endToEndSession initialWorld).view.weather.isSome = true ∧
    (runSession endToEndSession initialWorld).view.locations = [] ∧
    (runSession endToEndSession initialWorld).view.error = "" ∧
    sectionCount (runSession endToEndSession initialWorld).view = 1 :=
  ⟨by decide, session_weather_excludes_others endToEndSession (by decide)⟩

end WeatherApp
